import Mathlib

/-!
Shallow embedding of the row-view layer of the rql crate (src/row.rs):
the three view kinds Row, RowMut, MappedRow, their map / clone / equality /
formatting / dereference operations, and the row iterators RowIter and
RowIterMut, together with proofs of the specified properties.

Rust references become plain values, methods taking a reference become pure
functions, and the iterators (whose Rust next takes a mutable reference)
are modelled in state-passing style: step returns the yielded element
together with the advanced iterator.
-/

namespace Rql

/-- Modelled from the spec: the identifier type (crate::Id, external to
src/row.rs). The spec describes it as an opaque, copyable, displayable
handle naming one table slot, tagged with a phantom entity type; two
identifiers are equal iff they name the same slot. The slot name is
modelled as a natural number; the phantom tag as the type parameter. -/
structure Id (α : Type) where
  val : Nat

/-- A row in a Table (struct Row): an identifier paired with a shared
reference to the data, modelled as the value itself. -/
structure Row (T : Type) where
  id : Id T
  data : T

/-- A mutable row in a Table (struct RowMut): an identifier paired with an
exclusive reference to the data, modelled as the value itself. -/
structure RowMut (T : Type) where
  id : Id T
  data : T

/-- A row that was mapped from another and owns its data
(struct MappedRow of entity tag I and carried value type T). -/
structure MappedRow (I : Type) (T : Type) where
  id : Id I
  data : T

/-- Row::map — change the data held in a row without changing its id:
builds a MappedRow with the same id and f applied to the data. The Rust
method takes the row by shared reference (it is not consumed). -/
def Row.map (r : Row T) (f : T → U) : MappedRow T U :=
  { id := r.id, data := f r.data }

/-- Clone impl for Row: copies the identifier and the shared reference. -/
def Row.clone (r : Row T) : Row T :=
  { id := r.id, data := r.data }

/-- RowMut::map — same as Row::map, observing the data immutably. -/
def RowMut.map (r : RowMut T) (f : T → U) : MappedRow T U :=
  { id := r.id, data := f r.data }

/-- MappedRow::map — consumes self, keeps the id, transforms the data. -/
def MappedRow.map (m : MappedRow I T) (f : T → U) : MappedRow I U :=
  { id := m.id, data := f m.data }

/-- Clone impl for MappedRow (requires T to be cloneable; the clone of the
carried value is the supplied cloneT): same id, cloned data. -/
def MappedRow.clone (m : MappedRow I T) (cloneT : T → T) : MappedRow I T :=
  { id := m.id, data := cloneT m.data }

/-! Heterogeneous equality functions, one per PartialEq impl in src/row.rs.
The Rust bound T: PartialEq of U is modelled by the explicit comparison
function argument eq. Every impl compares data with data only. -/

/-- PartialEq of Row of U for Row of T. -/
def Row.beqRow (eq : T → U → Bool) (a : Row T) (b : Row U) : Bool :=
  eq a.data b.data

/-- PartialEq of RowMut of U for Row of T. -/
def Row.beqRowMut (eq : T → U → Bool) (a : Row T) (b : RowMut U) : Bool :=
  eq a.data b.data

/-- PartialEq of MappedRow of V, U for Row of T: the entity tag V of the
mapped row is a free parameter of the impl. -/
def Row.beqMapped (eq : T → U → Bool) (a : Row T) (b : MappedRow V U) : Bool :=
  eq a.data b.data

/-- PartialEq of RowMut of U for RowMut of T. -/
def RowMut.beqRowMut (eq : T → U → Bool) (a : RowMut T) (b : RowMut U) : Bool :=
  eq a.data b.data

/-- PartialEq of Row of U for RowMut of T. -/
def RowMut.beqRow (eq : T → U → Bool) (a : RowMut T) (b : Row U) : Bool :=
  eq a.data b.data

/-- PartialEq of MappedRow of V, U for RowMut of T: tag V free. -/
def RowMut.beqMapped (eq : T → U → Bool) (a : RowMut T) (b : MappedRow V U) : Bool :=
  eq a.data b.data

/-- PartialEq of MappedRow of I, U for MappedRow of I, T: note that this
impl requires the SAME entity tag I on both sides. -/
def MappedRow.beqMapped (eq : T → U → Bool) (a : MappedRow I T) (b : MappedRow I U) : Bool :=
  eq a.data b.data

/-- PartialEq of Row of U for MappedRow of V, T: tag V free. -/
def MappedRow.beqRow (eq : T → U → Bool) (a : MappedRow V T) (b : Row U) : Bool :=
  eq a.data b.data

/-- PartialEq of RowMut of U for MappedRow of V, T: tag V free. -/
def MappedRow.beqRowMut (eq : T → U → Bool) (a : MappedRow V T) (b : RowMut U) : Bool :=
  eq a.data b.data

/-! The shape of the PartialEq impl matrix itself, with the Rust type
parameters reified as natural-number names: row t is the type Row of t,
rowMut t is RowMut of t, mapped i t is MappedRow of i, t. -/

/-- One view type shape, its entity / value type parameters named by Nat. -/
inductive Kind where
  | row (t : Nat)
  | rowMut (t : Nat)
  | mapped (i t : Nat)

/-- Which ordered pairs of view types have a PartialEq impl in src/row.rs,
assuming the two carried value types are comparable (every impl also
carries a value-comparability bound, which is taken for granted here).
All nine impls exist; every one leaves the value types free, and all
entity tags are free except in the MappedRow-to-MappedRow impl, which
forces the same tag i on both sides. -/
def hasEqImpl : Kind → Kind → Bool
  | .row _, .row _ => true
  | .row _, .rowMut _ => true
  | .row _, .mapped _ _ => true
  | .rowMut _, .row _ => true
  | .rowMut _, .rowMut _ => true
  | .rowMut _, .mapped _ _ => true
  | .mapped i _, .mapped j _ => i == j
  | .mapped _ _, .row _ => true
  | .mapped _ _, .rowMut _ => true

/-! Formatting. The Rust Debug impls write the id via its Display, then
colon-space, then the data via its Debug, forwarding the alternate
(pretty) flag to the data; the Display impls forward to the data's
Display alone. The external Display of Id and the Debug / Display of the
data are parameters (idS, dbgT taking the alternate flag, dispT). -/

/-- Debug impl for Row: id, colon-space, data, with the alternate flag
forwarded to the data's Debug. -/
def Row.debugFmt (idS : Id T → String) (dbgT : Bool → T → String)
    (alt : Bool) (r : Row T) : String :=
  if alt then idS r.id ++ ": " ++ dbgT true r.data
  else idS r.id ++ ": " ++ dbgT false r.data

/-- Display impl for Row: forwards to the data's Display. -/
def Row.displayFmt (dispT : T → String) (r : Row T) : String :=
  dispT r.data

/-- Debug impl for RowMut: identical to Row's. -/
def RowMut.debugFmt (idS : Id T → String) (dbgT : Bool → T → String)
    (alt : Bool) (r : RowMut T) : String :=
  if alt then idS r.id ++ ": " ++ dbgT true r.data
  else idS r.id ++ ": " ++ dbgT false r.data

/-- Display impl for RowMut: forwards to the data's Display. -/
def RowMut.displayFmt (dispT : T → String) (r : RowMut T) : String :=
  dispT r.data

/-- Debug impl for MappedRow: identical to Row's. -/
def MappedRow.debugFmt (idS : Id I → String) (dbgT : Bool → T → String)
    (alt : Bool) (m : MappedRow I T) : String :=
  if alt then idS m.id ++ ": " ++ dbgT true m.data
  else idS m.id ++ ": " ++ dbgT false m.data

/-- Display impl for MappedRow: forwards to the data's Display. -/
def MappedRow.displayFmt (dispT : T → String) (m : MappedRow I T) : String :=
  dispT m.data

/-! Dereference operations. A Rust shared reference result is the value;
writing through a returned mutable reference to the data field is
modelled as replacing that field. -/

/-- Deref for MappedRow: a reference to the owned data. -/
def MappedRow.deref (m : MappedRow I T) : T :=
  m.data

/-- AsRef for MappedRow: a reference to the owned data. -/
def MappedRow.asRef (m : MappedRow I T) : T :=
  m.data

/-- DerefMut for MappedRow returns a mutable reference to the data field
itself; writing v through that reference replaces the data field. -/
def MappedRow.derefMutSet (m : MappedRow I T) (v : T) : MappedRow I T :=
  { m with data := v }

/-- AsMut for MappedRow returns the same mutable reference to the data
field; writing v through it replaces the data field. -/
def MappedRow.asMutSet (m : MappedRow I T) (v : T) : MappedRow I T :=
  { m with data := v }

/-! Iterators. The hashbrown map iterator inside RowIter / RowIterMut is
modelled as the list of remaining (identifier, value) entries in the
map's iteration order. -/

/-- An iterator over rows in a Table (struct RowIter). -/
structure RowIter (T : Type) where
  inner : List (Id T × T)

/-- Iterator::next for RowIter: takes the next entry of the inner map
iterator and wraps it as a Row sharing the entry's id and data; returns
none when exhausted. State-passing: the advanced iterator is returned. -/
def RowIter.step (it : RowIter T) : Option (Row T) × RowIter T :=
  match it.inner with
  | [] => (none, ⟨[]⟩)
  | (i, d) :: rest => (some { id := i, data := d }, ⟨rest⟩)

/-- Clone impl for RowIter: clones the inner map iterator, i.e. copies the
cursor over the remaining entries. -/
def RowIter.clone (it : RowIter T) : RowIter T :=
  ⟨it.inner⟩

/-- Wraps every remaining entry as RowIter.step does, in order. -/
def drainList : List (Id T × T) → List (Row T)
  | [] => []
  | (i, d) :: rest => { id := i, data := d } :: drainList rest

/-- Repeatedly calling next until exhaustion collects every yielded Row. -/
def RowIter.drain (it : RowIter T) : List (Row T) :=
  drainList it.inner

/-- A mutable iterator over rows in a Table (struct RowIterMut). -/
structure RowIterMut (T : Type) where
  inner : List (Id T × T)

/-- Iterator::next for RowIterMut: wraps the next entry as a RowMut. -/
def RowIterMut.step (it : RowIterMut T) : Option (RowMut T) × RowIterMut T :=
  match it.inner with
  | [] => (none, ⟨[]⟩)
  | (i, d) :: rest => (some { id := i, data := d }, ⟨rest⟩)

/-- C1: constructing a Row over (i, v) and calling map f yields a MappedRow
whose identifier is i and whose carried value is f v. Row.map takes the
row by shared reference (here: by value in a pure embedding), so it does
not consume the source view: the source is unchanged and remains usable,
witnessed by mapping the very same view again with any g. -/
theorem row_map_id_and_value (i : Id T) (v : T) (f : T → U) (g : T → V) :
    (Row.map { id := i, data := v } f).id = i
    ∧ (Row.map { id := i, data := v } f).data = f v
    ∧ (Row.map { id := i, data := v } g).id = i
    ∧ (Row.map { id := i, data := v } g).data = g v :=
  ⟨rfl, rfl, rfl, rfl⟩

/-- C2: every equality function between two view kinds compares carried
values only and never inspects identifiers; in particular a Row with
identifier i1 and data v equals a MappedRow with a different identifier
i2 and the same value v, whenever the value comparison is reflexive at v. -/
theorem eq_ignores_ids (eqT : T → T → Bool) (eqTU : T → U → Bool)
    (i1 : Id T) (i2 : Id V) (v : T)
    (a : Row T) (am : RowMut T) (ma : MappedRow W T)
    (b : Row U) (bm : RowMut U) (mb : MappedRow W U)
    (_hne : i1.val ≠ i2.val) (hrefl : eqT v v = true) :
    Row.beqMapped eqT { id := i1, data := v } { id := i2, data := v } = true
    ∧ Row.beqRow eqTU a b = eqTU a.data b.data
    ∧ Row.beqRowMut eqTU a bm = eqTU a.data bm.data
    ∧ Row.beqMapped eqTU a mb = eqTU a.data mb.data
    ∧ RowMut.beqRow eqTU am b = eqTU am.data b.data
    ∧ RowMut.beqRowMut eqTU am bm = eqTU am.data bm.data
    ∧ RowMut.beqMapped eqTU am mb = eqTU am.data mb.data
    ∧ MappedRow.beqRow eqTU ma b = eqTU ma.data b.data
    ∧ MappedRow.beqRowMut eqTU ma bm = eqTU ma.data bm.data
    ∧ MappedRow.beqMapped eqTU ma mb = eqTU ma.data mb.data :=
  ⟨hrefl, rfl, rfl, rfl, rfl, rfl, rfl, rfl, rfl, rfl⟩

/-- Witness for C2 at concrete inputs: identifiers 0 and 1 differ, the
values both are 5, and the comparison is Nat equality. -/
theorem eq_ignores_ids_witness :
    Row.beqMapped (fun x y : Nat => x == y)
      { id := ⟨0⟩, data := 5 } ({ id := ⟨1⟩, data := 5 } : MappedRow Bool Nat) = true :=
  (@eq_ignores_ids Nat Nat Bool Bool (fun x y => x == y) (fun x y => x == y)
    ⟨0⟩ ⟨1⟩ 5 ⟨⟨0⟩, 0⟩ ⟨⟨0⟩, 0⟩ ⟨⟨0⟩, 0⟩ ⟨⟨0⟩, 0⟩ ⟨⟨0⟩, 0⟩ ⟨⟨0⟩, 0⟩
    (by decide) (by decide)).1

/-- C3: chaining map on an owned MappedRow composes on the carried value —
r.map f then map g carries the same value as r.map of g after f — and the
identifier is unchanged at every step of the chain. -/
theorem mapped_map_chain (m : MappedRow I T) (f : T → U) (g : U → V) :
    (MappedRow.map (MappedRow.map m f) g).data
        = (MappedRow.map m (fun x => g (f x))).data
    ∧ (MappedRow.map m f).id = m.id
    ∧ (MappedRow.map (MappedRow.map m f) g).id = m.id
    ∧ MappedRow.map (MappedRow.map m f) g = MappedRow.map m (fun x => g (f x)) :=
  ⟨rfl, rfl, rfl, rfl⟩

/-- C4: draining any RowIter it yields exactly the table's entries as
(identifier, value) pairs — here even in iteration order, hence exactly
as many views as entries, forming exactly the entry set — and for any
RowIter jt on which step has returned none (leaving state jt2), stepping
jt2 returns none again with the state unchanged, hence none forever. -/
theorem rowIter_drain_exact (it jt jt2 : RowIter T)
    (hexh : RowIter.step jt = (none, jt2)) :
    (RowIter.drain it).map (fun r => (r.id, r.data)) = it.inner
    ∧ (RowIter.drain it).length = it.inner.length
    ∧ RowIter.step jt2 = (none, jt2) := by
  obtain ⟨l⟩ := it
  have hmap : ∀ l' : List (Id T × T),
      (RowIter.drain ⟨l'⟩).map (fun r => (r.id, r.data)) = l' := by
    intro l'
    induction l' with
    | nil => rfl
    | cons e rest ih =>
      obtain ⟨i, d⟩ := e
      simpa [RowIter.drain, drainList] using ih
  refine ⟨hmap l, ?_, ?_⟩
  · have := congrArg List.length (hmap l)
    simpa using this
  · obtain ⟨m⟩ := jt
    cases m with
    | nil =>
      obtain ⟨rfl⟩ : jt2 = ⟨[]⟩ := by
        simpa [RowIter.step] using congrArg Prod.snd hexh.symm
      rfl
    | cons e rest =>
      obtain ⟨i, d⟩ := e
      simp [RowIter.step] at hexh

/-- Witness for C4: the three-entry table of the spec's example, drained
in full, and the exhausted iterator stepping to none again. -/
theorem rowIter_drain_exact_witness :
    (RowIter.drain (⟨[(⟨1⟩, "a"), (⟨2⟩, "b"), (⟨3⟩, "c")]⟩ : RowIter String)).map
        (fun r => (r.id, r.data)) = [(⟨1⟩, "a"), (⟨2⟩, "b"), (⟨3⟩, "c")]
    ∧ (RowIter.drain (⟨[(⟨1⟩, "a"), (⟨2⟩, "b"), (⟨3⟩, "c")]⟩ : RowIter String)).length
        = ([(⟨1⟩, "a"), (⟨2⟩, "b"), (⟨3⟩, "c")] : List (Id String × String)).length
    ∧ RowIter.step (⟨[]⟩ : RowIter String) = (none, ⟨[]⟩) :=
  rowIter_drain_exact ⟨[(⟨1⟩, "a"), (⟨2⟩, "b"), (⟨3⟩, "c")]⟩ ⟨[]⟩ ⟨[]⟩ rfl

/-- C5 (amended): Debug formatting of every view kind renders as
id, colon-space, data — the identifier via its Display, the data via its
Debug with the alternate (pretty) flag forwarded — while Display
formatting forwards to the data's Display alone and omits the identifier. -/
theorem fmt_debug_id_data_display_data (idS : Id T → String) (idSI : Id I → String)
    (dbgT : Bool → T → String) (dispT : T → String) (alt : Bool)
    (r : Row T) (rm : RowMut T) (m : MappedRow I T) :
    Row.debugFmt idS dbgT alt r = idS r.id ++ ": " ++ dbgT alt r.data
    ∧ Row.displayFmt dispT r = dispT r.data
    ∧ RowMut.debugFmt idS dbgT alt rm = idS rm.id ++ ": " ++ dbgT alt rm.data
    ∧ RowMut.displayFmt dispT rm = dispT rm.data
    ∧ MappedRow.debugFmt idSI dbgT alt m = idSI m.id ++ ": " ++ dbgT alt m.data
    ∧ MappedRow.displayFmt dispT m = dispT m.data := by
  cases alt <;> exact ⟨rfl, rfl, rfl, rfl, rfl, rfl⟩

/-- C5 counterexample: Display for Row forwards to the data's Display
only. A Row with identifier 1 and data 2 displays as "2", not as "1: 2"
as the claim states for display formatting. -/
theorem row_display_omits_id :
    Row.displayFmt (fun n : Nat => toString n) { id := ⟨1⟩, data := 2 } ≠ "1: 2" := by
  decide

/-- C6 (amended): equality between two MappedRows compares the carried
values only and never inspects the identifier value; but the impl exists
exactly when both sides carry the same entity-type tag, so MappedRows
whose entity types differ cannot be compared — only the cross-kind impls
against Row and RowMut leave the entity tag free. -/
theorem mapped_eq_data_only_same_tag (eqTU : T → U → Bool)
    (ma : MappedRow I T) (mb : MappedRow I U) (i j t u : Nat) :
    MappedRow.beqMapped eqTU ma mb = eqTU ma.data mb.data
    ∧ hasEqImpl (Kind.mapped i t) (Kind.mapped j u) = (i == j)
    ∧ hasEqImpl (Kind.mapped i t) (Kind.row u) = true
    ∧ hasEqImpl (Kind.mapped i t) (Kind.rowMut u) = true :=
  ⟨rfl, rfl, rfl, rfl⟩

/-- C6 counterexample: the lone equality impl between two MappedRows
requires the same entity-type tag on both sides; for two distinct entity
types (named 0 and 1) no impl exists, so two such mapped rows cannot be
compared even with comparable carried values, contrary to the claim. -/
theorem mapped_mapped_diff_tag_not_comparable :
    hasEqImpl (Kind.mapped 0 0) (Kind.mapped 1 0) = false := by
  decide

/-- C7: cross-kind equality is symmetric across all three view kinds:
whenever the two value comparisons are mutually symmetric, comparing a
with b gives the same answer as comparing b with a for every pairing of
Row, RowMut and MappedRow. -/
theorem eq_symm_cross_kinds (eqTU : T → U → Bool) (eqUT : U → T → Bool)
    (a : Row T) (am : RowMut T) (ma : MappedRow I T)
    (b : Row U) (bm : RowMut U) (mb : MappedRow I U)
    (hsymm : ∀ x y, eqTU x y = eqUT y x) :
    Row.beqRow eqTU a b = Row.beqRow eqUT b a
    ∧ Row.beqRowMut eqTU a bm = RowMut.beqRow eqUT bm a
    ∧ Row.beqMapped eqTU a mb = MappedRow.beqRow eqUT mb a
    ∧ RowMut.beqRowMut eqTU am bm = RowMut.beqRowMut eqUT bm am
    ∧ RowMut.beqMapped eqTU am mb = MappedRow.beqRowMut eqUT mb am
    ∧ MappedRow.beqMapped eqTU ma mb = MappedRow.beqMapped eqUT mb ma :=
  ⟨hsymm _ _, hsymm _ _, hsymm _ _, hsymm _ _, hsymm _ _, hsymm _ _⟩

/-- Witness for C7 at concrete inputs with Nat equality as the (symmetric)
value comparison. -/
theorem eq_symm_cross_kinds_witness :
    Row.beqRow (fun x y : Nat => x == y) { id := ⟨0⟩, data := 1 } { id := ⟨1⟩, data := 2 }
      = Row.beqRow (fun x y : Nat => x == y) { id := ⟨1⟩, data := 2 } { id := ⟨0⟩, data := 1 } :=
  (@eq_symm_cross_kinds Nat Nat Bool (fun x y => x == y) (fun x y => x == y)
    ⟨⟨0⟩, 1⟩ ⟨⟨0⟩, 1⟩ ⟨⟨0⟩, 1⟩ ⟨⟨1⟩, 2⟩ ⟨⟨1⟩, 2⟩ ⟨⟨1⟩, 2⟩
    (fun x y => by simp [Nat.beq_eq, eq_comm])).1

/-- C8: cloning an in-progress RowIter copies the cursor, yielding an
independent iterator over the same remaining entries; stepping is pure
(the advanced cursor is a fresh value and the clone's cursor advances to
the tail), so advancing only the clone leaves the original untouched and
the original's next yielded element is the same as if no clone existed. -/
theorem rowIter_clone_independent (it : RowIter T) :
    RowIter.clone it = it
    ∧ (RowIter.step (RowIter.clone it)).1 = (RowIter.step it).1
    ∧ ((RowIter.step (RowIter.clone it)).2).inner = it.inner.tail := by
  refine ⟨rfl, rfl, ?_⟩
  obtain ⟨l⟩ := it
  cases l with
  | nil => rfl
  | cons e rest => obtain ⟨i, d⟩ := e; rfl

/-- C9: no operation of the view layer changes the identifier a view
carries: map on Row, RowMut and MappedRow, and cloning, all keep the
source identifier, and a view produced by a row iterator carries the
identifier of the table entry its data came from. -/
theorem id_never_changes (r : Row T) (rm : RowMut T) (m : MappedRow I T)
    (f : T → U) (cloneT : T → T)
    (i : Id T) (d : T) (rest : List (Id T × T)) :
    (Row.map r f).id = r.id
    ∧ (RowMut.map rm f).id = rm.id
    ∧ (MappedRow.map m f).id = m.id
    ∧ (Row.clone r).id = r.id
    ∧ (MappedRow.clone m cloneT).id = m.id
    ∧ RowIter.step ⟨(i, d) :: rest⟩ = (some { id := i, data := d }, ⟨rest⟩)
    ∧ RowIterMut.step ⟨(i, d) :: rest⟩ = (some { id := i, data := d }, ⟨rest⟩) :=
  ⟨rfl, rfl, rfl, rfl, rfl, rfl, rfl⟩

/-- C10: a MappedRow exposes mutable access to its owned carried value:
writing v through the reference returned by deref_mut or as_mut is seen
by every subsequent read through deref or as_ref of the same MappedRow,
and the identifier is unchanged; reads simply return the owned value. -/
theorem mapped_mut_access (m : MappedRow I T) (v : T) :
    (MappedRow.derefMutSet m v).deref = v
    ∧ (MappedRow.derefMutSet m v).asRef = v
    ∧ (MappedRow.derefMutSet m v).id = m.id
    ∧ (MappedRow.asMutSet m v).deref = v
    ∧ (MappedRow.asMutSet m v).asRef = v
    ∧ (MappedRow.asMutSet m v).id = m.id
    ∧ MappedRow.deref m = m.data
    ∧ MappedRow.asRef m = m.data :=
  ⟨rfl, rfl, rfl, rfl, rfl, rfl, rfl, rfl⟩

end Rql
